import Mathlib

/-!
Shallow embedding of the ATS resume-checker repository (app.py, index.py,
main.py, groq_api.py, api/index.py).

The repository's scoring core is `DeterministicATSAnalyzer` in main.py: it
extracts regex/substring observations from the resume text and combines them
with fixed tables and weights into a 0-100 score plus narrative lists.  The
embedding separates the two layers exactly as the source does:

* a `Features` record holds the raw observations the `re`/substring layer
  produces from the resume text (one field per regex or substring probe the
  source performs);
* every function downstream of those observations (all `_analyze_*` scorers,
  `_calculate_final_score`, the narrative generators, `merge_analysis_results`,
  and the three HTTP endpoint bodies) is translated line by line.

Python floats (the fixed decimal weights, percentage arithmetic) are modelled
by exact rational values; since every such value here is a ratio of integers
with a fixed denominator, the arithmetic is carried out exactly on integers
(`Int.tdiv` is `int()` truncation toward zero).  Python strings are `String`
or, for request bodies, lists of code points; CPython's strict UTF-8 decoder
is `utf8Decode`.
-/

set_option maxRecDepth 16384

namespace ATS

/-- The apostrophe character, used to assemble string literals that contain
single quotes. -/
def sq : String :=
  String.singleton (Char.ofNat 39)

/-- `needle` occurs at the start of `hay` (on code points / characters). -/
def beginsWithL {α : Type} [DecidableEq α] : List α → List α → Bool
  | [], _ => true
  | _ :: _, [] => false
  | a :: as, b :: bs => a = b && beginsWithL as bs

/-- `needle` occurs somewhere inside `hay`: Python's `needle in hay` on
strings. -/
def listInfix {α : Type} [DecidableEq α] (needle : List α) : List α → Bool
  | [] => beginsWithL needle []
  | b :: bs => beginsWithL needle (b :: bs) || listInfix needle bs

/-- Python substring test `needle in hay`. -/
def strIn (needle hay : String) : Bool :=
  listInfix needle.data hay.data

/-- Python `str.lower()` (ASCII case mapping, which covers every string this
code lowercases: keyword-table entries, `[A-Za-z+#.]` tokens, filenames). -/
def pyLower (s : String) : String :=
  String.mk (s.data.map Char.toLower)

/-- Python `str.endswith(suffix)`. -/
def strEndsWith (s suffix : String) : Bool :=
  beginsWithL suffix.data.reverse s.data.reverse

/-- Python `str.split(sep)` for a one-character separator, on characters. -/
def splitOnChar (c : Char) : List Char → List (List Char)
  | [] => [[]]
  | ch :: rest =>
    match splitOnChar c rest with
    | [] => [[ch]]
    | h :: t => if ch = c then [] :: h :: t else (ch :: h) :: t

/-- Code points of a string (used for request/response texts modelled as
lists of code points). -/
def strCodes (s : String) : List Nat :=
  s.data.map Char.toNat

/-- Characters stripped by Python `str.strip()` with no argument: exactly the
code points for which `str.isspace()` holds. -/
def pyWhitespace : List Nat :=
  [9, 10, 11, 12, 13, 28, 29, 30, 31, 32, 133, 160, 5760,
   8192, 8193, 8194, 8195, 8196, 8197, 8198, 8199, 8200, 8201, 8202,
   8232, 8233, 8239, 8287, 12288]

/-- Python `str.strip()`: drop leading and trailing whitespace code points. -/
def pyStrip (t : List Nat) : List Nat :=
  ((t.dropWhile (· ∈ pyWhitespace)).reverse.dropWhile (· ∈ pyWhitespace)).reverse

/-- A UTF-8 continuation byte. -/
def isCont (b : Nat) : Bool :=
  0x80 ≤ b && b ≤ 0xBF

/-- Allowed second byte of a three-byte UTF-8 sequence (excludes overlong
encodings and surrogates, as CPython's strict decoder does). -/
def follow2Ok (b b1 : Nat) : Bool :=
  if b = 0xE0 then 0xA0 ≤ b1 && b1 ≤ 0xBF
  else if b = 0xED then 0x80 ≤ b1 && b1 ≤ 0x9F
  else isCont b1

/-- Allowed second byte of a four-byte UTF-8 sequence. -/
def follow3Ok (b b1 : Nat) : Bool :=
  if b = 0xF0 then 0x90 ≤ b1 && b1 ≤ 0xBF
  else if b = 0xF4 then 0x80 ≤ b1 && b1 ≤ 0x8F
  else isCont b1

/-- Strict UTF-8 decoding of a byte list to code points; `none` models
`bytes.decode("utf-8")` raising `UnicodeDecodeError`. -/
def utf8Decode : List Nat → Option (List Nat)
  | [] => some []
  | b :: rest =>
    if b ≤ 0x7F then
      (utf8Decode rest).map (fun cs => b :: cs)
    else if 0xC2 ≤ b && b ≤ 0xDF then
      match rest with
      | b1 :: r =>
        if isCont b1 then
          (utf8Decode r).map (fun cs => ((b - 0xC0) * 0x40 + (b1 - 0x80)) :: cs)
        else none
      | [] => none
    else if 0xE0 ≤ b && b ≤ 0xEF then
      match rest with
      | b1 :: b2 :: r =>
        if follow2Ok b b1 && isCont b2 then
          (utf8Decode r).map (fun cs =>
            ((b - 0xE0) * 0x1000 + (b1 - 0x80) * 0x40 + (b2 - 0x80)) :: cs)
        else none
      | _ => none
    else if 0xF0 ≤ b && b ≤ 0xF4 then
      match rest with
      | b1 :: b2 :: b3 :: r =>
        if follow3Ok b b1 && isCont b2 && isCont b3 then
          (utf8Decode r).map (fun cs =>
            ((b - 0xF0) * 0x40000 + (b1 - 0x80) * 0x1000 +
              (b2 - 0x80) * 0x40 + (b3 - 0x80)) :: cs)
        else none
      | _ => none
    else none

namespace DeterministicATSAnalyzer

/-- main.py `TECH_KEYWORDS` (dict of category → keyword list, insertion
order preserved). -/
def TECH_KEYWORDS : List (String × List String) :=
  [("languages", ["python", "java", "javascript", "typescript", "c++", "c#", "ruby",
     "go", "rust", "php", "swift", "kotlin", "scala", "sql", "r", "matlab"]),
   ("frameworks", ["react", "angular", "vue", "node", "django", "flask", "spring",
     "express", "rails", "laravel", "nextjs", "gatsby", "svelte"]),
   ("cloud", ["aws", "azure", "gcp", "google cloud", "docker", "kubernetes",
     "terraform", "jenkins", "ci/cd", "devops"]),
   ("data", ["machine learning", "deep learning", "data science", "analytics",
     "big data", "hadoop", "spark", "tensorflow", "pytorch", "pandas", "numpy"]),
   ("tools", ["git", "github", "gitlab", "jira", "confluence", "slack", "figma",
     "sketch", "postman", "mongodb", "postgresql", "mysql", "redis"])]

/-- main.py `BUSINESS_KEYWORDS`. -/
def BUSINESS_KEYWORDS : List (String × List String) :=
  [("management", ["project management", "team lead", "stakeholder", "budget",
     "strategy", "planning", "coordination", "leadership"]),
   ("analysis", ["business analysis", "requirements", "process improvement",
     "data analysis", "reporting", "metrics", "kpi"]),
   ("communication", ["presentation", "negotiation", "client relations",
     "cross-functional", "collaboration"]),
   ("methodologies", ["agile", "scrum", "waterfall", "lean", "six sigma",
     "kanban", "pmp", "prince2"])]

/-- main.py `ACTION_VERBS["high_impact"]`. -/
def ACTION_VERBS_high_impact : List String :=
  ["achieved", "accelerated", "delivered", "exceeded", "generated", "increased",
   "launched", "led", "optimized", "pioneered", "reduced", "saved", "spearheaded",
   "streamlined", "transformed"]

/-- main.py `ACTION_VERBS["medium_impact"]`. -/
def ACTION_VERBS_medium_impact : List String :=
  ["analyzed", "built", "collaborated", "coordinated", "created", "designed",
   "developed", "established", "implemented", "improved", "managed", "organized",
   "produced"]

/-- main.py `ACTION_VERBS["standard"]`. -/
def ACTION_VERBS_standard : List String :=
  ["assisted", "conducted", "contributed", "executed", "facilitated", "handled",
   "maintained", "participated", "performed", "prepared", "processed", "provided",
   "supported"]

/-- main.py `ESSENTIAL_SECTIONS`. -/
def ESSENTIAL_SECTIONS : List String :=
  ["contact", "experience", "education", "skills"]

/-- main.py `RECOMMENDED_SECTIONS`. -/
def RECOMMENDED_SECTIONS : List String :=
  ["summary", "projects", "certifications", "achievements", "awards"]

/-- Keys of main.py's `section_patterns` dict, in insertion order. -/
def sectionNames : List String :=
  ["contact", "experience", "education", "skills", "summary", "projects",
   "certifications", "achievements"]

/-- The raw observations the `re`/substring layer of
`DeterministicATSAnalyzer` extracts from the resume text.  Each field records
the outcome of one regex search, `findall` count, or substring probe the
source performs on `resume_text` / `resume_lower`. -/
structure Features where
  /-- `s in self.resume_lower` substring probe (for any lowercase string). -/
  inText : String → Bool
  /-- the email regex matched -/
  hasEmailRegex : Bool
  /-- the phone-number regex matched -/
  hasPhoneRegex : Bool
  /-- the `City, ST` location regex matched -/
  hasLocationRegex : Bool
  /-- per section name: its `section_patterns` regex matched `resume_lower` -/
  sectionRegexMatch : String → Bool
  /-- count of ALL-CAPS header lines found by the header regex -/
  headerLineCount : Nat
  /-- values captured by the year regex group `(19|20)` (so 19 or 20 per hit,
  a quirk of `re.findall` with a capture group) -/
  yearGroups : List Nat
  /-- total match count over the seven quantified-achievement regexes -/
  quantifiedCount : Nat
  /-- per verb: its stem regex matched `resume_lower` -/
  verbMatch : String → Bool
  /-- occurrences of the bullet characters counted by `str.count` -/
  bulletSymbolCount : Nat
  /-- matches of the leading-dash/star bullet line regex -/
  lineDashBulletCount : Nat
  wordCount : Nat
  sentenceCount : Nat
  paragraphCount : Nat
  lineCount : Nat
  charCount : Nat
  /-- occurrences of the pipe character -/
  pipeCount : Nat
  /-- matches of the date-format regex -/
  dateFormatCount : Nat
  /-- total occurrences of the listed problematic characters -/
  problematicCharCount : Nat
  /-- the long-non-ASCII-run regex matched -/
  hasLongNonAscii : Bool
  /-- word count of the text matched by the experience-section regex, when it
  matched -/
  expSectionWordCount : Option Nat
  /-- distinct lowercase 4+-letter words of the resume (`set` of `findall`) -/
  resumeWords4 : List String

/-- The observations extracted from a non-empty job description. -/
structure JDFeatures where
  /-- tokens of `re.findall` with the word pattern, in order, original case -/
  rawTokens : List String
  /-- distinct lowercase 4+-letter words of the job description -/
  words4 : List String

/-- `_analyze_contact_info`: point allocation 25/25/20/15/15 for email,
phone, linkedin, location, professional link. -/
def analyze_contact_info (f : Features) : Int :=
  let score : Int := 0
  let score := if f.hasEmailRegex then score + 25 else score
  let score := if f.hasPhoneRegex then score + 25 else score
  let score := if f.inText "linkedin" then score + 20 else score
  let locationIndicators := ["city", "state", "country", "location", "address", "remote"]
  let score :=
    if locationIndicators.any f.inText || f.hasLocationRegex then score + 15 else score
  let score :=
    if ["github", "portfolio", "gitlab", "bitbucket", "website"].any f.inText then
      score + 15
    else score
  score

/-- `found_sections` as computed in `_analyze_structure`: the section names
whose pattern matched, in the order of the `section_patterns` dict. -/
def found_sections (f : Features) : List String :=
  sectionNames.filter f.sectionRegexMatch

/-- `all(year_ints[i] >= year_ints[i+1] for i in range(len-1))`. -/
def pairwiseGe : List Int → Bool
  | a :: b :: rest => decide (a ≥ b) && pairwiseGe (b :: rest)
  | _ => true

/-- `sum(1 for i in range(len-1) if year_ints[i] >= year_ints[i+1])`. -/
def countAdjGe : List Int → Nat
  | a :: b :: rest => (if a ≥ b then 1 else 0) + countAdjGe (b :: rest)
  | _ => 0

/-- `_analyze_structure`: 17 points per essential section found, 8 per
recommended, +10 for ≥3 header lines, +5 for a roughly descending year
chronology; capped at 100. -/
def analyze_structure (f : Features) : Int :=
  let found := found_sections f
  let score : Int := 0
  let score := score + 17 * ((ESSENTIAL_SECTIONS.filter (· ∈ found)).length : Int)
  let score := score + 8 * ((RECOMMENDED_SECTIONS.filter (· ∈ found)).length : Int)
  let score := if f.headerLineCount ≥ 3 then score + 10 else score
  let score :=
    if f.yearGroups ≠ [] then
      if f.yearGroups.length ≥ 2 then
        let year_ints : List Int := (f.yearGroups.take 6).map (fun y => (y : Int))
        if pairwiseGe year_ints || countAdjGe year_ints > year_ints.length / 2 then
          score + 5
        else score
      else score
    else score
  min score 100

/-- `metrics["clear_headers"]` as set in `_analyze_structure`. -/
def clear_headers (f : Features) : Bool :=
  if f.headerLineCount ≥ 3 then true else f.headerLineCount ≥ 1

/-- `_analyze_achievements`: the fixed count-to-score thresholds applied to
the number of quantified-achievement regex matches. -/
def analyze_achievements (f : Features) : Int :=
  let c := f.quantifiedCount
  if c ≥ 10 then 95
  else if c ≥ 7 then 85
  else if c ≥ 5 then 75
  else if c ≥ 3 then 65
  else if c ≥ 2 then 55
  else if c ≥ 1 then 45
  else 25

/-- Matched verbs of one tier in `_analyze_action_verbs`. -/
def matchedVerbs (f : Features) (tier : List String) : List String :=
  tier.filter f.verbMatch

/-- `_analyze_action_verbs`: min(100, 8·high + 4·medium + 2·standard) with a
+15 variety bonus (again capped at 100). -/
def analyze_action_verbs (f : Features) : Int :=
  let high_impact := matchedVerbs f ACTION_VERBS_high_impact
  let medium_impact := matchedVerbs f ACTION_VERBS_medium_impact
  let standard := matchedVerbs f ACTION_VERBS_standard
  let total_verbs := high_impact.length + medium_impact.length + standard.length
  let score : Int :=
    min 100 ((high_impact.length : Int) * 8 + (medium_impact.length : Int) * 4 +
      (standard.length : Int) * 2)
  if total_verbs ≥ 10 && high_impact.length ≥ 3 then min 100 (score + 15) else score

/-- `total_bullets` as computed in `_analyze_formatting`. -/
def total_bullets (f : Features) : Nat :=
  f.bulletSymbolCount + f.lineDashBulletCount

/-- `metrics["optimal_length"]` as set in `_analyze_formatting`. -/
def optimal_length (f : Features) : Bool :=
  400 ≤ f.wordCount && f.wordCount ≤ 800

/-- `_analyze_formatting`: baseline 70, bullet bonuses, word-count band
adjustment, possible-table penalty (the source also tests for the presence of
a pipe character, which `count > 10` already implies), date-format bonus;
clamped to [0,100]. -/
def analyze_formatting (f : Features) : Int :=
  let score : Int := 70
  let tb := total_bullets f
  let score :=
    if tb ≥ 15 then score + 15
    else if tb ≥ 10 then score + 10
    else if tb ≥ 5 then score + 5
    else score
  let wc := f.wordCount
  let score :=
    if 400 ≤ wc && wc ≤ 800 then score + 10
    else if 300 ≤ wc && wc ≤ 1000 then score + 5
    else score - 5
  let score := if f.pipeCount > 10 then score - 10 else score
  let score := if f.dateFormatCount ≥ 4 then score + 5 else score
  max 0 (min 100 score)

/-- The seniority/progression indicator terms of `_analyze_content_depth`. -/
def progressionTerms : List String :=
  ["senior", "lead", "manager", "director", "principal", "architect", "head",
   "chief", "vp", "promoted", "advanced"]

/-- `metrics["career_progression"]`. -/
def career_progression (f : Features) : Nat :=
  (progressionTerms.filter f.inText).length

/-- `_analyze_content_depth`: baseline 50, experience-section detail bonus,
progression bonus, keyword-breadth bonus (the source reads the truncated
`metrics["found_keywords"]`, which holds at most 20 entries); clamped. -/
def analyze_content_depth (f : Features) (found_keywords_metric : List String) : Int :=
  let score : Int := 50
  let score :=
    match f.expSectionWordCount with
    | some exp_word_count =>
      if exp_word_count ≥ 200 then score + 20
      else if exp_word_count ≥ 100 then score + 10
      else score
    | none => score
  let progression_found := career_progression f
  let score :=
    if progression_found ≥ 2 then score + 15
    else if progression_found ≥ 1 then score + 8
    else score
  let technical_depth := found_keywords_metric.length
  let score :=
    if technical_depth ≥ 15 then score + 15
    else if technical_depth ≥ 10 then score + 10
    else if technical_depth ≥ 5 then score + 5
    else score
  max 0 (min 100 score)

/-- `_check_ats_compatibility`: baseline 80, penalties for problematic
characters and long non-ASCII runs, bonuses for clean headers and bullet
density; clamped. -/
def check_ats_compatibility (f : Features) : Int :=
  let score : Int := 80
  let score :=
    if f.problematicCharCount > 5 then score - 15
    else if f.problematicCharCount > 0 then score - 5
    else score
  let score := if f.hasLongNonAscii then score - 10 else score
  let score := if clear_headers f then score + 10 else score
  let score := if total_bullets f ≥ 5 then score + 10 else score
  max 0 (min 100 score)

/-- Stop words removed from both token sets in `_analyze_jd_match`. -/
def jdMatchCommonWords : List String :=
  ["with", "that", "this", "have", "from", "they", "will", "your", "about",
   "been", "more", "when", "there", "which", "their", "would", "could",
   "should", "other"]

/-- `_analyze_jd_match`: token-set intersection ratio between job description
and resume, scaled by 1.2, truncated and capped at 100; fixed 70 when no
usable job-description words remain. -/
def analyze_jd_match (f : Features) : Option JDFeatures → Int
  | none => 70
  | some j =>
    let jd_words := j.words4.filter (fun w => w ∉ jdMatchCommonWords)
    let resume_words := f.resumeWords4.filter (fun w => w ∉ jdMatchCommonWords)
    if jd_words = [] then 70
    else
      let common_matches := jd_words.inter resume_words
      -- match_percentage = |matches| / |jd_words| * 100 exactly, so
      -- min(100, int(match_percentage * 1.2)) = min 100 (120·|matches| / |jd_words|)
      -- computed in exact integer arithmetic (all quantities nonnegative, so
      -- floor division is int() truncation)
      min 100 (((120 * common_matches.length) / jd_words.length : Nat) : Int)

/-- `_calculate_final_score`: weighted average of the sub-scores (the decimal
weights are modelled exactly as rationals), then the hard ceilings for a
missing email, zero quantified achievements, and fewer than three recognized
sections, then the clamp to [0,100]. -/
def calculate_final_score (weighted_scores : List (Int × Nat))
    (has_email : Bool) (quantified_achievements : Nat)
    (found_sections_count : Nat) : Int :=
  -- each decimal weight is the exact fraction pᵢ/100, so total = (Σ sᵢ·pᵢ)/100
  -- and total_weight = (Σ pᵢ)/100, and int(total / total_weight) is the ratio
  -- (Σ sᵢ·pᵢ) / (Σ pᵢ) truncated toward zero
  let total_num : Int := weighted_scores.foldl (fun acc p => acc + p.1 * (p.2 : Int)) 0
  let total_weight_num : Int := weighted_scores.foldl (fun acc p => acc + (p.2 : Int)) 0
  let final : Int :=
    if 0 < total_weight_num then Int.tdiv total_num total_weight_num else 50
  let final := if ¬ has_email then min final 80 else final
  let final := if quantified_achievements = 0 then min final 70 else final
  let final := if found_sections_count < 3 then min final 65 else final
  max 0 (min 100 final)

/-- Python `repr` of a list of (single-quote-free) strings. -/
def pyListRepr (l : List String) : String :=
  "[" ++ String.intercalate ", " (l.map (fun s => sq ++ s ++ sq)) ++ "]"

/-- Python `repr` of a dict from strings to lists of strings (insertion
order). -/
def pyDictRepr (d : List (String × List String)) : String :=
  "\x7b" ++
    String.intercalate ", " (d.map (fun p => sq ++ p.1 ++ sq ++ ": " ++ pyListRepr p.2)) ++
  "\x7d"

/-- The stop-word list used when filtering job-description tokens in
`_analyze_keywords`. -/
def jdTokenStopWords : List String :=
  ["the", "and", "for", "are", "with", "will", "you", "our", "your", "this",
   "that", "have", "has", "from", "they", "been", "were", "being", "what",
   "when", "where", "which", "who", "also", "can", "may", "must", "should",
   "would", "could", "than", "then", "only", "just", "into", "over", "such",
   "very", "some", "other"]

/-- One step of building `jd_keyword_freq`: bump the count of `k`, keeping
first-occurrence order (Python dict insertion order). -/
def bumpFreq : List (String × Nat) → String → List (String × Nat)
  | [], k => [(k, 1)]
  | (a, n) :: rest, k =>
    if a = k then (a, n + 1) :: rest else (a, n) :: bumpFreq rest k

/-- `jd_keyword_freq` built over the lowercased filtered tokens. -/
def freqOf (ks : List String) : List (String × Nat) :=
  ks.foldl bumpFreq []

/-- Stable insertion into a count-descending list: an element is placed after
all earlier elements with a count ≥ its own, which is exactly the order
`sorted(..., key=lambda x: x[1], reverse=True)` produces. -/
def insertByCountDesc (x : String × Nat) : List (String × Nat) → List (String × Nat)
  | [] => [x]
  | y :: ys => if y.2 ≥ x.2 then y :: insertByCountDesc x ys else x :: y :: ys

/-- Stable sort by count, descending. -/
def sortByCountDesc : List (String × Nat) → List (String × Nat)
  | [] => []
  | x :: xs => insertByCountDesc x (sortByCountDesc xs)

/-- The missing-keyword suggestion pass of `_analyze_keywords` when no job
description is given: walk the chosen dictionary, first three keywords of
each category, appending keywords absent from the resume until the list
holds 8 entries (the source exits via nested `break`s exactly when the
length reaches 8, after which nothing more is appended). -/
def suggestMissing (f : Features) (dict : List (String × List String))
    (missing0 : List String) : List String :=
  (dict.map (fun p => p.2.take 3)).flatten.foldl
    (fun missing kw =>
      if missing.length ≥ 8 then missing
      else if ¬ f.inText (pyLower kw) && kw ∉ missing then missing ++ [kw]
      else missing)
    missing0

/-- The outcome of `_analyze_keywords` before the response-shaping
truncations: the full `found_keywords` and `missing_keywords` lists and the
keyword score. -/
structure KeywordState where
  found_keywords : List String
  missing_keywords : List String
  keyword_score : Int

/-- The threshold table mapping `keyword_count` to the base keyword score.
(In the final `else` branch the count is at most 2, so `max(20, count*10)`
is always 20; the expression is kept as written.) -/
def keywordScoreOfCount (keyword_count : Nat) : Int :=
  if keyword_count ≥ 25 then 95
  else if keyword_count ≥ 20 then 88
  else if keyword_count ≥ 15 then 80
  else if keyword_count ≥ 10 then 70
  else if keyword_count ≥ 7 then 60
  else if keyword_count ≥ 5 then 50
  else if keyword_count ≥ 3 then 40
  else max 20 ((keyword_count : Int) * 10)

/-- The `found_keywords` / `missing_keywords` lists built by
`_analyze_keywords`: the dictionary scan (tech first, then business, in dict
order) followed by either the job-description matching loop or the
industry-based suggestion pass. -/
def keywordLists (f : Features) (jd : Option JDFeatures) : List String × List String :=
  let found_keywords :=
    ((TECH_KEYWORDS.map Prod.snd).flatten ++ (BUSINESS_KEYWORDS.map Prod.snd).flatten).filter
      (fun kw => f.inText (pyLower kw))
  match jd with
  | some j =>
    let jd_keywords :=
      j.rawTokens.filter (fun (w : String) => w.length > 2 && pyLower w ∉ jdTokenStopWords)
    let jd_keyword_freq := freqOf (jd_keywords.map pyLower)
    let top_jd_keywords := (sortByCountDesc jd_keyword_freq).take 20
    top_jd_keywords.foldl
      (fun (st : List String × List String) (kf : String × Nat) =>
        let (found, missing) := st
        if f.inText kf.1 then
          if kf.1 ∉ found.map pyLower then (found ++ [kf.1], missing)
          else (found, missing)
        else (found, missing ++ [kf.1]))
      (found_keywords, [])
  | none =>
    let tech_count :=
      found_keywords.countP (fun (k : String) => strIn (pyLower k) (pyLower (pyDictRepr TECH_KEYWORDS)))
    let missing :=
      if tech_count > 5 then suggestMissing f TECH_KEYWORDS []
      else suggestMissing f BUSINESS_KEYWORDS []
    (found_keywords, missing)

/-- The keyword score of `_analyze_keywords`: the threshold table applied to
the hit count, plus the high-match-ratio boost when a job description was
given and keywords are missing. -/
def keywordScoreFinal (found_keywords missing_keywords : List String)
    (jdGiven : Bool) : Int :=
  let keyword_score := keywordScoreOfCount found_keywords.length
  if jdGiven && missing_keywords ≠ [] then
    -- match_ratio = |found| / max(|found| + |missing[:10]|, 1); the test
    -- match_ratio > 0.7 is the exact integer comparison 10·|found| > 7·max(...)
    if 10 * found_keywords.length >
        7 * max (found_keywords.length + (missing_keywords.take 10).length) 1 then
      min (keyword_score + 10) 100
    else keyword_score
  else keyword_score

/-- `_analyze_keywords`: dictionary hits, job-description keyword matching
(or industry-based suggestions when no job description is given), the
threshold score, and the high-match boost. -/
def analyze_keywords (f : Features) (jd : Option JDFeatures) : KeywordState :=
  let (found_keywords, missing_keywords) := keywordLists f jd
  { found_keywords := found_keywords
    missing_keywords := missing_keywords
    keyword_score := keywordScoreFinal found_keywords missing_keywords jd.isSome }

/-- The `self.metrics` / `self.scores` entries that the narrative generators
(`_generate_strengths`, `_generate_improvements`, `_generate_recommendations`)
read after the sub-analyses have run. -/
structure Metrics where
  quantified_achievements : Nat
  high_impact_verbs : List String
  keyword_count : Nat
  /-- `self.scores["formatting"]` -/
  formatting_score : Int
  has_linkedin : Bool
  has_professional_link : Bool
  found_sections : List String
  career_progression : Nat
  word_count : Nat
  optimal_length : Bool
  bullet_points : Nat
  /-- `self.scores["jd_match"]`, set only when a job description was given -/
  jd_match_score : Option Int
  /-- truthiness of `self.job_description` -/
  has_jd : Bool
  /-- `self.scores["achievements"]` -/
  achievements_score : Int

/-- The interpolated strength sentence for five or more quantified
achievements. -/
def strength_quantified (n : Nat) : String :=
  "Strong use of quantified achievements (" ++ toString n ++
    " measurable results identified)"

/-- The interpolated strength sentence for a rich keyword count. -/
def strength_rich_keywords (kc : Nat) : String :=
  "Rich keyword content with " ++ toString kc ++ "+ relevant professional terms"

/-- The interpolated improvement sentence naming missing sections. -/
def imp_missing_sections (missing_sections : List String) : String :=
  "Consider adding missing sections: " ++
    String.intercalate ", " (missing_sections.take 3)

/-- The interpolated first fixed recommendation. -/
def rec_quantify_impact (n : Nat) : String :=
  "Quantify your impact: Transform statements like " ++ sq ++ "improved sales" ++
    sq ++ " into " ++ sq ++ "increased sales by 25% ($2M revenue)" ++ sq ++
    " - you currently have " ++ toString n ++ " quantified achievements"

/-- The interpolated keyword-density recommendation. -/
def rec_keyword_density (kc : Nat) : String :=
  "Increase keyword density: Add " ++ toString ((15 : Int) - kc) ++
    " more relevant technical/industry terms throughout your resume"

/-- The outcomes-over-duties recommendation. -/
def rec_focus_outcomes : String :=
  "Focus on outcomes over duties: Replace " ++ sq ++ "Responsible for..." ++ sq ++
    " with " ++ sq ++ "Achieved/Delivered..." ++ sq

/-- The conditionally appended strength sentences of `_generate_strengths`,
one entry per `if`/`elif` group, in source order (`none` when the group
appends nothing). -/
def strengthSlots (m : Metrics) : List (Option String) :=
  [if m.quantified_achievements ≥ 5 then
     some (strength_quantified m.quantified_achievements)
   else if m.quantified_achievements ≥ 2 then
     some "Includes quantified achievements demonstrating measurable impact"
   else none,
   if m.high_impact_verbs.length ≥ 3 then
     some "Excellent use of high-impact action verbs that convey leadership and results"
   else none,
   if m.keyword_count ≥ 15 then
     some (strength_rich_keywords m.keyword_count)
   else if m.keyword_count ≥ 10 then
     some "Good industry-relevant keyword coverage"
   else none,
   if m.formatting_score ≥ 80 then
     some "Clean, ATS-optimized formatting with effective use of bullet points"
   else none,
   if m.has_linkedin && m.has_professional_link then
     some "Professional online presence with LinkedIn and portfolio links"
   else if m.has_linkedin then
     some "Includes LinkedIn profile for professional networking"
   else none,
   if m.found_sections.length ≥ 5 then
     some "Comprehensive resume structure with all essential and recommended sections"
   else if m.found_sections.length ≥ 4 then
     some "Well-organized resume with clear section structure"
   else none,
   if m.career_progression ≥ 2 then
     some "Demonstrates clear career progression and professional growth"
   else none,
   if 400 ≤ m.word_count && m.word_count ≤ 700 then
     some "Optimal resume length for ATS parsing and recruiter review"
   else none]

/-- The dynamically collected strengths, before padding. -/
def dynamicStrengths (m : Metrics) : List String :=
  (strengthSlots m).filterMap id

/-- `default_strengths` in `_generate_strengths` (note: only three entries). -/
def default_strengths : List String :=
  ["Resume successfully parsed without critical ATS errors",
   "Contact information properly formatted for ATS extraction",
   "Professional language and tone throughout document"]

/-- One pass of the body of the `while len(strengths) < 4` padding loop:
each default is appended when it is not yet present and the list still has
fewer than 4 entries. -/
def strengthsPadPass (strengths : List String) : List String :=
  default_strengths.foldl
    (fun acc s => if s ∉ acc ∧ acc.length < 4 then acc ++ [s] else acc)
    strengths

/-- `_generate_strengths`.  The `while len(strengths) < 4` loop runs the pass
until the list holds 4 entries.  A single pass either reaches length 4 or
ends with every default already present, in which case every further pass is
the identity and the loop never exits; `none` models that divergence. -/
def generate_strengths (m : Metrics) : Option (List String) :=
  let strengths := dynamicStrengths m
  let padded := if strengths.length < 4 then strengthsPadPass strengths else strengths
  if padded.length < 4 then none else some (padded.take 6)

/-- The conditionally appended improvement sentences of
`_generate_improvements`, one entry per `if` group, in source order. -/
def improvementSlots (m : Metrics) : List (Option String) :=
  [if m.quantified_achievements < 3 then
     some "Add more quantified achievements with specific metrics (percentages, dollar amounts, user counts)"
   else none,
   if m.keyword_count < 10 then
     some "Incorporate more industry-relevant keywords and technical terminology"
   else none,
   if ¬ m.has_linkedin then
     some "Add LinkedIn profile URL to strengthen professional presence"
   else none,
   if m.high_impact_verbs.length < 3 then
     some "Replace passive language with high-impact action verbs (achieved, delivered, transformed)"
   else none,
   if ¬ m.optimal_length then
     if m.word_count < 400 then
       some "Expand content with more detail about achievements and responsibilities (aim for 400-700 words)"
     else if m.word_count > 800 then
       some "Consider condensing content to 1-2 pages for optimal recruiter attention"
     else none
   else none,
   if m.bullet_points < 10 then
     some "Use more bullet points to improve readability and ATS parsing"
   else none,
   (let missing_sections :=
      (ESSENTIAL_SECTIONS ++ RECOMMENDED_SECTIONS.take 2).filter
        (fun s => s ∉ m.found_sections)
    if missing_sections ≠ [] then
      some (imp_missing_sections missing_sections)
    else none),
   if m.jd_match_score.getD 100 < 60 && m.has_jd then
     some "Tailor resume content to better match the specific job requirements"
   else none]

/-- `_generate_improvements` (no padding: the list may be empty). -/
def generate_improvements (m : Metrics) : List String :=
  ((improvementSlots m).filterMap id).take 6

/-- `list.insert(1, x)` on a list known to be non-empty. -/
def insertAt1 {α : Type} (x : α) : List α → List α
  | [] => [x]
  | a :: rest => a :: x :: rest

/-- `_generate_recommendations`: five fixed sentences, a keyword-density
sentence inserted at position 0, a portfolio sentence appended, an
outcome-focus sentence inserted at position 1; truncated to 7. -/
def generate_recommendations (m : Metrics) : List String :=
  let recommendations :=
    [rec_quantify_impact m.quantified_achievements,
     "Use the STAR method (Situation, Task, Action, Result) for each experience bullet point",
     "Mirror key terms from job descriptions - ATS systems scan for exact keyword matches",
     "Place most relevant skills and keywords in the top third of your resume for visibility",
     "Update your LinkedIn profile to match your resume for consistency across platforms"]
  let recommendations :=
    if m.keyword_count < 15 then
      rec_keyword_density m.keyword_count :: recommendations
    else recommendations
  let recommendations :=
    if ¬ m.has_professional_link then
      recommendations ++ ["Add a GitHub or portfolio link to showcase your work samples"]
    else recommendations
  let recommendations :=
    if m.achievements_score < 60 then
      insertAt1 rec_focus_outcomes recommendations
    else recommendations
  recommendations.take 7

/-- The `keyword_analysis` sub-object of the response. -/
structure KeywordAnalysis where
  keyword_score : Int
  present_keywords : List String
  missing_keywords : List String
  deriving DecidableEq

/-- The dict returned by `DeterministicATSAnalyzer.analyze` (the
`detailed_metrics` entry is the `Metrics` record itself). -/
structure AnalysisOutput where
  ats_score : Int
  keyword_analysis : KeywordAnalysis
  formatting_score : Int
  content_quality_score : Int
  impact_score : Int
  strengths : List String
  areas_for_improvement : List String
  recommendations : List String

/-- The `Metrics` record assembled by the sub-analyses, given the raw
features and the keyword-analysis state. -/
def metricsOf (f : Features) (jd : Option JDFeatures) (kw : KeywordState)
    (formatting_score achievement_score : Int) : Metrics :=
  { quantified_achievements := f.quantifiedCount
    high_impact_verbs := matchedVerbs f ACTION_VERBS_high_impact
    keyword_count := kw.found_keywords.length
    formatting_score := formatting_score
    has_linkedin := f.inText "linkedin"
    has_professional_link :=
      ["github", "portfolio", "gitlab", "bitbucket", "website"].any f.inText
    found_sections := found_sections f
    career_progression := career_progression f
    word_count := f.wordCount
    optimal_length := optimal_length f
    bullet_points := total_bullets f
    jd_match_score := match jd with | some _ => some (analyze_jd_match f jd) | none => none
    has_jd := jd.isSome
    achievements_score := achievement_score }

/-- `DeterministicATSAnalyzer.analyze`: runs every sub-analysis, combines the
sub-scores with the fixed weights, and builds the narrative lists.  `none`
models the divergence of the `_generate_strengths` padding loop. -/
def analyze (f : Features) (jd : Option JDFeatures) : Option AnalysisOutput :=
  let contact_score := analyze_contact_info f
  let structure_score := analyze_structure f
  let kw := analyze_keywords f jd
  let achievement_score := analyze_achievements f
  let verb_score := analyze_action_verbs f
  let formatting_score := analyze_formatting f
  let content_score := analyze_content_depth f (kw.found_keywords.take 20)
  let ats_compat_score := check_ats_compatibility f
  -- `self._analyze_jd_match() if self.job_description else 70`: the guard
  -- coincides with the function's own no-job-description case, which is 70
  let jd_match_score := analyze_jd_match f jd
  let final_score :=
    calculate_final_score
      [(contact_score, 8), (structure_score, 12), (kw.keyword_score, 20),
       (achievement_score, 18), (verb_score, 8), (formatting_score, 12),
       (content_score, 12), (ats_compat_score, 5), (jd_match_score, 5)]
      f.hasEmailRegex f.quantifiedCount (found_sections f).length
  let m := metricsOf f jd kw formatting_score achievement_score
  (generate_strengths m).map fun strengths =>
    { ats_score := final_score
      keyword_analysis :=
        { keyword_score := kw.keyword_score
          present_keywords := kw.found_keywords.take 15
          missing_keywords := kw.missing_keywords.take 8 }
      formatting_score := formatting_score
      content_quality_score := content_score
      impact_score := achievement_score
      strengths := strengths
      areas_for_improvement := generate_improvements m
      recommendations := generate_recommendations m }

end DeterministicATSAnalyzer

/-- main.py `generate_feedback`: canned feedback text per score band. -/
def generate_feedback (score : Int) : String :=
  if score ≥ 90 then
    "Exceptional resume with a score of " ++ toString score ++
      "/100! Your resume demonstrates outstanding ATS optimization with strong quantified achievements, excellent keyword coverage, and professional formatting. You" ++
      sq ++ "re well-positioned for top-tier opportunities."
  else if score ≥ 80 then
    "Excellent resume scoring " ++ toString score ++
      "/100. Your resume shows strong ATS compatibility with good keyword usage and clear structure. Minor optimizations could push you into the exceptional range."
  else if score ≥ 70 then
    "Very good resume with a score of " ++ toString score ++
      "/100. You have a solid foundation with room for improvement. Focus on adding more quantified achievements and industry-specific keywords."
  else if score ≥ 60 then
    "Good resume scoring " ++ toString score ++
      "/100. Your resume has potential but needs optimization. Prioritize adding measurable results and tailoring content to specific job descriptions."
  else if score ≥ 50 then
    "Fair resume with a score of " ++ toString score ++ "/100. There" ++ sq ++
      "s significant room for improvement. Focus on quantifying achievements, adding relevant keywords, and improving document structure."
  else if score ≥ 40 then
    "Your resume scores " ++ toString score ++
      "/100 and needs substantial work. Review the recommendations below and prioritize adding quantified achievements and industry keywords."
  else
    "Your resume scores " ++ toString score ++
      "/100 and requires significant revision. Focus on adding essential sections, quantified achievements, and proper formatting for ATS compatibility."

/-- The fields `merge_analysis_results` reads from a parsed AI reply, each as
the optional JSON value (`.get` defaults are applied at the use sites, as in
the source). -/
structure AIInsights where
  ai_score_adjustment : Option Int
  ai_overall_feedback : Option String
  ai_strengths : List String
  ai_improvements : List String
  ai_keyword_suggestions : List String
  ai_recommendations : List String

/-- The response of the hybrid path: the deterministic fields plus the
`overall_feedback` entry added by the merge. -/
structure MergedResult where
  ats_score : Int
  overall_feedback : String
  keyword_analysis : DeterministicATSAnalyzer.KeywordAnalysis
  formatting_score : Int
  content_quality_score : Int
  impact_score : Int
  strengths : List String
  areas_for_improvement : List String
  recommendations : List String

/-- main.py `merge_analysis_results`: the deterministic result is the base;
an AI adjustment clamped to ±10 is added and the sum re-clamped to [0,100];
narrative lists are merged AI-first with de-duplication and per-list caps. -/
def merge_analysis_results (det : DeterministicATSAnalyzer.AnalysisOutput)
    (ai_insights : Option AIInsights) : MergedResult :=
  match ai_insights with
  | some ai =>
    let score_adjustment := ai.ai_score_adjustment.getD 0
    let score_adjustment := max (-10) (min 10 score_adjustment)
    let ats_score := max 0 (min 100 (det.ats_score + score_adjustment))
    let overall_feedback :=
      if ai.ai_overall_feedback.getD "" ≠ "" then ai.ai_overall_feedback.getD ""
      else generate_feedback ats_score
    let strengths :=
      (ai.ai_strengths.take 2 ++
        det.strengths.filter (fun s => s ∉ ai.ai_strengths)).take 6
    let improvements :=
      (ai.ai_improvements.take 2 ++
        det.areas_for_improvement.filter (fun i => i ∉ ai.ai_improvements)).take 6
    let missing_keywords :=
      if ai.ai_keyword_suggestions ≠ [] then
        (ai.ai_keyword_suggestions.take 3 ++
          det.keyword_analysis.missing_keywords.filter
            (fun k => k ∉ ai.ai_keyword_suggestions)).take 8
      else det.keyword_analysis.missing_keywords
    let recommendations :=
      (ai.ai_recommendations.take 2 ++
        det.recommendations.filter (fun r => r ∉ ai.ai_recommendations)).take 7
    { ats_score := ats_score
      overall_feedback := overall_feedback
      keyword_analysis := { det.keyword_analysis with missing_keywords := missing_keywords }
      formatting_score := det.formatting_score
      content_quality_score := det.content_quality_score
      impact_score := det.impact_score
      strengths := strengths
      areas_for_improvement := improvements
      recommendations := recommendations }
  | none =>
    { ats_score := det.ats_score
      overall_feedback := generate_feedback det.ats_score
      keyword_analysis := det.keyword_analysis
      formatting_score := det.formatting_score
      content_quality_score := det.content_quality_score
      impact_score := det.impact_score
      strengths := det.strengths
      areas_for_improvement := det.areas_for_improvement
      recommendations := det.recommendations }

/-- main.py `analyze_resume_with_hybrid_approach`: the deterministic analysis
always runs first; the AI step runs only when the credential variable holds a
non-empty value, and even then may yield nothing (`aiReply` models the value
`get_ai_analysis` would return). -/
def analyze_resume_with_hybrid_approach (f : DeterministicATSAnalyzer.Features)
    (jd : Option DeterministicATSAnalyzer.JDFeatures)
    (apiKey : Option String) (aiReply : Option AIInsights) : Option MergedResult :=
  (DeterministicATSAnalyzer.analyze f jd).map fun det =>
    let ai_insights := if apiKey.getD "" ≠ "" then aiReply else none
    merge_analysis_results det ai_insights

namespace Main

/-- Result of main.py `extract_text_from_file`: the pdf/docx branches catch
library errors internally (returning `"Error extracting ..."` strings), so
only the bare `file_content.decode("utf-8")` of the txt branch can raise. -/
inductive ExtractOutcome where
  | text (t : List Nat)
  | unicodeDecodeError
  deriving DecidableEq

/-- main.py `extract_text_from_file`, parametrized by the result strings of
the external pdf/docx extraction helpers (which never raise). -/
def extract_text_from_file (pdfExtract docxExtract : List Nat → List Nat)
    (file_content : List Nat) (filename : String) : ExtractOutcome :=
  if strEndsWith (pyLower filename) ".pdf" then .text (pdfExtract file_content)
  else if strEndsWith (pyLower filename) ".docx" then .text (docxExtract file_content)
  else if strEndsWith (pyLower filename) ".txt" then
    match utf8Decode file_content with
    | some t => .text t
    | none => .unicodeDecodeError
  else
    .text (strCodes "Unsupported file format. Please upload PDF, DOCX, or TXT files.")

/-- What main.py's `/analyze` handler does with an upload, up to the point
where the hybrid analysis takes over. -/
inductive AnalyzeOutcome where
  | noFile
  | extractionError (msg : List Nat)
  | unhandledException
  | analyzed (resume_text : List Nat) (job_description : String)
  deriving DecidableEq

/-- main.py `analyze_resume` (`/analyze`): rejects a missing filename,
extracts text, rejects texts beginning with `Error` or `Unsupported` as
extraction failures, and otherwise hands the text to
`analyze_resume_with_hybrid_approach`.  There is no minimum-length gate; a
`UnicodeDecodeError` from the txt branch escapes the handler. -/
def analyze_resume (pdfExtract docxExtract : List Nat → List Nat)
    (filename : Option String) (file_content : List Nat)
    (job_description : Option String) : AnalyzeOutcome :=
  if filename.getD "" = "" then .noFile
  else
    match extract_text_from_file pdfExtract docxExtract file_content (filename.getD "") with
    | .unicodeDecodeError => .unhandledException
    | .text resume_text =>
      if beginsWithL (strCodes "Error") resume_text ||
          beginsWithL (strCodes "Unsupported") resume_text then
        .extractionError resume_text
      else
        .analyzed resume_text (job_description.getD "")

end Main

namespace App

/-- The fields of the JSON object parsed from the model reply in
`call_groq_ai`, each as the optional raw value (missing fields are backfilled
with the documented defaults). -/
structure Reply where
  ats_score : Option Int
  summary_feedback : Option String
  skills_feedback : Option String
  experience_feedback : Option String
  education_feedback : Option String
  formatting_feedback : Option String
  pros : Option (List String)
  cons : Option (List String)
  recommendations : Option (List String)
  matched_keywords : Option (List String)
  missing_keywords : Option (List String)
  improvement_areas : Option (List String)
  strengths : Option (List String)

/-- app.py's pydantic `AnalysisResult` shape. -/
structure AnalysisResult where
  ats_score : Int
  summary_feedback : String
  skills_feedback : String
  experience_feedback : String
  education_feedback : String
  formatting_feedback : String
  pros : List String
  cons : List String
  recommendations : List String
  matched_keywords : List String
  missing_keywords : List String
  improvement_areas : List String
  strengths : List String

/-- Outcome of the remote call as seen by `call_groq_ai`. -/
inductive RemoteResponse where
  | ok (reply : Option Reply)   -- HTTP 200; `none` when the content is not valid JSON
  | httpFail (code : Nat)       -- non-200 status
  | netError                    -- requests.RequestException

/-- The fixed fallback analysis `call_groq_ai` returns when the model content
is not parseable JSON. -/
def fallbackAnalysis : AnalysisResult :=
  { ats_score := 50
    summary_feedback := "Unable to parse AI response. Please try again."
    skills_feedback := "Error in analysis"
    experience_feedback := "Error in analysis"
    education_feedback := "Error in analysis"
    formatting_feedback := "Error in analysis"
    pros := ["Resume uploaded successfully"]
    cons := ["Unable to complete full analysis"]
    recommendations := ["Please try uploading again"]
    matched_keywords := []
    missing_keywords := []
    improvement_areas := ["Technical Analysis"]
    strengths := ["File Format Compatible"] }

/-- app.py `call_groq_ai` after the HTTP exchange: backfill missing fields
with the defaults of `required_fields`, then clamp the score with
`max(0, min(100, int(...)))`; errors become `HTTPException`s (the status
code is the payload here). -/
def call_groq_ai (resp : RemoteResponse) : Except Nat AnalysisResult :=
  match resp with
  | .ok (some r) =>
    .ok { ats_score := max 0 (min 100 (r.ats_score.getD 0))
          summary_feedback := r.summary_feedback.getD "Unable to generate feedback"
          skills_feedback := r.skills_feedback.getD "Unable to analyze skills"
          experience_feedback := r.experience_feedback.getD "Unable to analyze experience"
          education_feedback := r.education_feedback.getD "Unable to analyze education"
          formatting_feedback := r.formatting_feedback.getD "Unable to analyze formatting"
          pros := r.pros.getD []
          cons := r.cons.getD []
          recommendations := r.recommendations.getD []
          matched_keywords := r.matched_keywords.getD []
          missing_keywords := r.missing_keywords.getD []
          improvement_areas := r.improvement_areas.getD []
          strengths := r.strengths.getD [] }
  | .ok none => .ok fallbackAnalysis
  | .httpFail code => .error code
  | .netError => .error 500

/-- What app.py's `/analyze` handler does with an upload, up to the remote
call. -/
inductive AnalyzeOutcome where
  | httpError (status : Nat) (detail : List Nat)
  | callsAI (resume_text : List Nat) (job_description : String)
  deriving DecidableEq

/-- `filename.lower().split(".")[-1]`. -/
def fileExtOf (filename : String) : String :=
  String.mk ((splitOnChar (Char.ofNat 46) (pyLower filename).data).getLastD [])

/-- app.py `analyze_resume` (`/analyze`): filename, extension and size
validation, empty-file check, extraction (the txt branch raises a handled
`HTTPException 400` on bad UTF-8; the external pdf/docx extractors are
parameters returning either text or a 400 error), and the 50-character
minimum on the stripped extracted text, before `call_groq_ai` runs. -/
def analyze_resume (pdfExtract docxExtract : List Nat → Except (List Nat) (List Nat))
    (filename : Option String) (size : Option Nat) (file_bytes : List Nat)
    (job_description : String) : AnalyzeOutcome :=
  if filename.getD "" = "" then .httpError 400 (strCodes "No file uploaded")
  else
    let file_ext := fileExtOf (filename.getD "")
    if file_ext ∉ ["pdf", "docx", "txt"] then
      .httpError 400
        (strCodes "Unsupported file format. Please upload PDF, DOCX, or TXT files.")
    else if (match size with | some s => decide (s > 10 * 1024 * 1024) | none => false) then
      .httpError 400 (strCodes "File size must be less than 10MB")
    else if file_bytes.length = 0 then
      .httpError 400 (strCodes "Uploaded file is empty")
    else
      let extracted : Except (List Nat) (List Nat) :=
        if file_ext = "pdf" then pdfExtract file_bytes
        else if file_ext = "docx" then docxExtract file_bytes
        else
          match utf8Decode file_bytes with
          | some t => .ok t
          -- the source interpolates str(e) after this prefix
          | none => .error (strCodes "Error reading TXT")
      match extracted with
      | .error detail => .httpError 400 detail
      | .ok resume_text =>
        if resume_text = [] ∨ (pyStrip resume_text).length < 50 then
          .httpError 400
            (strCodes "Could not extract sufficient text from the file. Please ensure your resume contains readable text.")
        else
          .callsAI resume_text job_description

end App

namespace Index

/-- The fields of the JSON object parsed from the model reply in index.py
`analyze_resume_with_ai`, as optional raw values (`setdefault` fills the
missing ones). -/
structure Reply where
  score : Option Int
  feedback : Option String
  strengths : Option (List String)
  improvements : Option (List String)
  keywords_found : Option (List String)
  keywords_missing : Option (List String)

/-- The analysis dict index.py returns to the caller. -/
structure Analysis where
  score : Int
  feedback : String
  strengths : List String
  improvements : List String
  keywords_found : List String
  keywords_missing : List String

/-- index.py `analyze_resume_with_ai` after a successful HTTP exchange:
`setdefault` each field (score default 75) — the score is NOT clamped — or,
when the extracted braces do not parse as JSON, a fixed fallback with score
75 and the raw reply as feedback. -/
def analyze_resume_with_ai (parsed : Option Reply) (ai_response : String) : Analysis :=
  match parsed with
  | some r =>
    { score := r.score.getD 75
      feedback := r.feedback.getD "Resume analysis completed."
      strengths := r.strengths.getD []
      improvements := r.improvements.getD []
      keywords_found := r.keywords_found.getD []
      keywords_missing := r.keywords_missing.getD [] }
  | none =>
    { score := 75
      feedback := ai_response
      strengths := ["Professional experience included", "Educational background present"]
      improvements := ["Add more specific achievements", "Include relevant keywords"]
      keywords_found := []
      keywords_missing := [] }

/-- What index.py's `/analyze` handler does with an upload, up to the remote
call. -/
inductive AnalyzeOutcome where
  | httpError (status : Nat) (detail : String)
  | unhandledException
  | aiAnalyze (resume_text : List Nat) (job_description : String)
  deriving DecidableEq

/-- index.py `analyze_resume` (`/analyze`): a missing (or empty) credential
is rejected up front with HTTP 500; then size check, extension dispatch
(pdf/docx extractors raise handled 400 errors; the bare txt
`file_content.decode("utf-8")` is unhandled), the whitespace-only check, and
finally the AI call. -/
def analyze_resume (GROQ_API_KEY : Option String)
    (pdfExtract docxExtract : List Nat → Except String (List Nat))
    (filename : String) (size : Nat) (file_content : List Nat)
    (job_description : Option String) : AnalyzeOutcome :=
  if GROQ_API_KEY.getD "" = "" then .httpError 500 "AI service configuration error"
  else if size > 10 * 1024 * 1024 then .httpError 400 "File size too large (max 10MB)"
  else
    let extracted : Except String (Option (List Nat)) :=
      if strEndsWith (pyLower filename) ".pdf" then (pdfExtract file_content).map some
      else if strEndsWith (pyLower filename) ".docx" then (docxExtract file_content).map some
      else if strEndsWith (pyLower filename) ".txt" then
        match utf8Decode file_content with
        | some t => .ok (some t)
        | none => .ok none   -- UnicodeDecodeError: not caught anywhere
      else .error "Unsupported file type. Please upload PDF, DOCX, or TXT files."
    match extracted with
    | .error detail => .httpError 400 detail
    | .ok none => .unhandledException
    | .ok (some resume_text) =>
      if pyStrip resume_text = [] then
        .httpError 400 "Could not extract text from the file"
      else
        .aiAnalyze resume_text (job_description.getD "")

end Index

/-- A parsed index.py reply whose score field is out of range. -/
def oversizedIndexReply : Index.Reply :=
  { score := some 150, feedback := none, strengths := none,
    improvements := none, keywords_found := none, keywords_missing := none }

/-- A txt upload body longer than the 50-character minimum. -/
def longTextCodes : List Nat :=
  strCodes "An experienced software engineer resume with plenty of detail in here."

/-- A txt upload body much shorter than the 50-character minimum. -/
def shortTextCodes : List Nat :=
  strCodes "too short"

/-- A legitimate resume text whose first word is `Error`. -/
def errorTextCodes : List Nat :=
  strCodes "Error handling expert with years of experience in reliability"

namespace DeterministicATSAnalyzer

/-- The features of a strong resume (reachable from a text that contains the
twelve listed dictionary terms, an email, a phone number, all section
headings, five quantified achievements, three high-impact verbs, twelve
bullets and about 500 words). -/
def strongResumeFeatures : Features :=
  { inText := fun s => s ∈ ["linkedin", "github", "python", "java", "react", "aws",
      "docker", "git", "sql", "agile", "scrum", "leadership"],
    hasEmailRegex := true, hasPhoneRegex := true, hasLocationRegex := false,
    sectionRegexMatch := fun _ => true,
    headerLineCount := 4, yearGroups := [20, 20, 19], quantifiedCount := 5,
    verbMatch := fun v => v ∈ ["achieved", "delivered", "led"],
    bulletSymbolCount := 12, lineDashBulletCount := 0,
    wordCount := 500, sentenceCount := 30, paragraphCount := 10, lineCount := 40,
    charCount := 3000, pipeCount := 0, dateFormatCount := 4,
    problematicCharCount := 0, hasLongNonAscii := false,
    expSectionWordCount := some 250, resumeWords4 := [] }

/-- The features of a sparse resume whose only probe hit is the substring
`linkedin` (reachable from a short text mentioning LinkedIn). -/
def linkedinOnlyFeatures : Features :=
  { inText := fun s => s == "linkedin",
    hasEmailRegex := false, hasPhoneRegex := false, hasLocationRegex := false,
    sectionRegexMatch := fun _ => false,
    headerLineCount := 0, yearGroups := [], quantifiedCount := 0,
    verbMatch := fun _ => false,
    bulletSymbolCount := 0, lineDashBulletCount := 0,
    wordCount := 10, sentenceCount := 1, paragraphCount := 1, lineCount := 1,
    charCount := 60, pipeCount := 0, dateFormatCount := 0,
    problematicCharCount := 0, hasLongNonAscii := false,
    expSectionWordCount := none, resumeWords4 := [] }

/-- A placeholder output (only used as the `Option.getD` default below). -/
def junkOutput : AnalysisOutput :=
  { ats_score := 0,
    keyword_analysis := { keyword_score := 0, present_keywords := [], missing_keywords := [] },
    formatting_score := 0, content_quality_score := 0, impact_score := 0,
    strengths := [], areas_for_improvement := [], recommendations := [] }

/-- The analysis the scorer produces for `linkedinOnlyFeatures`. -/
def linkedinOnlyOutput : AnalysisOutput :=
  (analyze linkedinOnlyFeatures none).getD junkOutput

/-- The analysis the scorer produces for `strongResumeFeatures`. -/
def strongResumeOutput : AnalysisOutput :=
  (analyze strongResumeFeatures none).getD junkOutput

/-- The metrics of a degenerate input (for example a 60-character text of a
single repeated letter, which passes no probe): every strength condition
fails. -/
def degenerateMetrics : Metrics :=
  { quantified_achievements := 0, high_impact_verbs := [], keyword_count := 0,
    formatting_score := 65, has_linkedin := false, has_professional_link := false,
    found_sections := [], career_progression := 0, word_count := 1,
    optimal_length := false, bullet_points := 0, jd_match_score := none,
    has_jd := false, achievements_score := 25 }

/-- The first 14 characters of a string: enough to distinguish every canned
narrative sentence from every other, whatever the interpolated values are. -/
def tagOf (s : String) : List Char :=
  s.data.take 14

/-- Per-slot tag candidates for the strength sentences. -/
def strengthMasterTags : List (List (List Char)) :=
  [[tagOf "Strong use of quantified achievements (",
    tagOf "Includes quantified achievements demonstrating measurable impact"],
   [tagOf "Excellent use of high-impact action verbs that convey leadership and results"],
   [tagOf "Rich keyword content with ",
    tagOf "Good industry-relevant keyword coverage"],
   [tagOf "Clean, ATS-optimized formatting with effective use of bullet points"],
   [tagOf "Professional online presence with LinkedIn and portfolio links",
    tagOf "Includes LinkedIn profile for professional networking"],
   [tagOf "Comprehensive resume structure with all essential and recommended sections",
    tagOf "Well-organized resume with clear section structure"],
   [tagOf "Demonstrates clear career progression and professional growth"],
   [tagOf "Optimal resume length for ATS parsing and recruiter review"]]

/-- Per-slot tag candidates for the improvement sentences. -/
def impMasterTags : List (List (List Char)) :=
  [[tagOf "Add more quantified achievements with specific metrics (percentages, dollar amounts, user counts)"],
   [tagOf "Incorporate more industry-relevant keywords and technical terminology"],
   [tagOf "Add LinkedIn profile URL to strengthen professional presence"],
   [tagOf "Replace passive language with high-impact action verbs (achieved, delivered, transformed)"],
   [tagOf "Expand content with more detail about achievements and responsibilities (aim for 400-700 words)",
    tagOf "Consider condensing content to 1-2 pages for optimal recruiter attention"],
   [tagOf "Use more bullet points to improve readability and ATS parsing"],
   [tagOf "Consider adding missing sections: "],
   [tagOf "Tailor resume content to better match the specific job requirements"]]

end DeterministicATSAnalyzer

/-! ## Supporting lemmas -/

namespace DeterministicATSAnalyzer

theorem analyze_contact_info_range (f : Features) :
    0 ≤ analyze_contact_info f ∧ analyze_contact_info f ≤ 100 := by
  unfold analyze_contact_info
  dsimp only
  split_ifs <;> omega

theorem analyze_structure_range (f : Features) :
    0 ≤ analyze_structure f ∧ analyze_structure f ≤ 100 := by
  unfold analyze_structure
  split_ifs <;>
    simp only [min_le_iff, le_min_iff] <;>
    constructor <;>
    omega

theorem keywordScoreOfCount_range (c : Nat) :
    20 ≤ keywordScoreOfCount c ∧ keywordScoreOfCount c ≤ 95 := by
  unfold keywordScoreOfCount
  split_ifs <;> omega

theorem keywordScoreFinal_range (found missing : List String) (jdGiven : Bool) :
    0 ≤ keywordScoreFinal found missing jdGiven ∧
      keywordScoreFinal found missing jdGiven ≤ 100 := by
  have h := keywordScoreOfCount_range found.length
  unfold keywordScoreFinal
  dsimp only
  split_ifs <;> omega

theorem analyze_keywords_score_range (f : Features) (jd : Option JDFeatures) :
    0 ≤ (analyze_keywords f jd).keyword_score ∧
      (analyze_keywords f jd).keyword_score ≤ 100 := by
  unfold analyze_keywords
  exact keywordScoreFinal_range _ _ _

theorem analyze_achievements_range (f : Features) :
    0 ≤ analyze_achievements f ∧ analyze_achievements f ≤ 100 := by
  unfold analyze_achievements
  dsimp only
  split_ifs <;> omega

theorem analyze_action_verbs_range (f : Features) :
    0 ≤ analyze_action_verbs f ∧ analyze_action_verbs f ≤ 100 := by
  unfold analyze_action_verbs
  dsimp only
  split_ifs <;> omega

theorem analyze_formatting_range (f : Features) :
    0 ≤ analyze_formatting f ∧ analyze_formatting f ≤ 100 := by
  unfold analyze_formatting
  dsimp only
  split_ifs <;> omega

theorem analyze_content_depth_range (f : Features) (fk : List String) :
    0 ≤ analyze_content_depth f fk ∧ analyze_content_depth f fk ≤ 100 := by
  unfold analyze_content_depth
  dsimp only
  split_ifs <;> omega

theorem check_ats_compatibility_range (f : Features) :
    0 ≤ check_ats_compatibility f ∧ check_ats_compatibility f ≤ 100 := by
  unfold check_ats_compatibility
  dsimp only
  split_ifs <;> omega

theorem analyze_jd_match_range (f : Features) (jd : Option JDFeatures) :
    0 ≤ analyze_jd_match f jd ∧ analyze_jd_match f jd ≤ 100 := by
  cases jd with
  | none =>
    unfold analyze_jd_match
    norm_num
  | some j =>
    unfold analyze_jd_match
    dsimp only
    split_ifs with h
    · norm_num
    · exact ⟨le_min (by norm_num) (Int.natCast_nonneg _), min_le_left _ _⟩

theorem calculate_final_score_range (ws : List (Int × Nat)) (e : Bool) (q s : Nat) :
    0 ≤ calculate_final_score ws e q s ∧ calculate_final_score ws e q s ≤ 100 := by
  unfold calculate_final_score
  dsimp only
  split_ifs <;> omega

/-- C2: in the deterministic scorer, after the weighted sum of sub-scores,
hard ceilings are applied to the final score: with no email detected the
final score is at most 80, with zero quantified-achievement matches at most
70, and with fewer than 3 recognized sections at most 65 — each ceiling
holding regardless of the weighted sub-scores and of the other metrics. -/
theorem final_score_hard_ceilings (ws : List (Int × Nat)) (e : Bool) (q s : Nat) :
    (e = false → calculate_final_score ws e q s ≤ 80) ∧
    (q = 0 → calculate_final_score ws e q s ≤ 70) ∧
    (s < 3 → calculate_final_score ws e q s ≤ 65) := by
  unfold calculate_final_score
  dsimp only
  refine ⟨fun he => ?_, fun hq => ?_, fun hs => ?_⟩ <;> split_ifs <;> simp_all

/-- Witness for `final_score_hard_ceilings` at a concrete input. -/
theorem final_score_hard_ceilings_witness :
    DeterministicATSAnalyzer.calculate_final_score [(100, 1)] false 0 0 ≤ 80 ∧
    DeterministicATSAnalyzer.calculate_final_score [(100, 1)] false 0 0 ≤ 70 ∧
    DeterministicATSAnalyzer.calculate_final_score [(100, 1)] false 0 0 ≤ 65 :=
  ⟨(final_score_hard_ceilings [(100, 1)] false 0 0).1 rfl,
   (final_score_hard_ceilings [(100, 1)] false 0 0).2.1 rfl,
   (final_score_hard_ceilings [(100, 1)] false 0 0).2.2 (by norm_num)⟩

/-- C9: each sub-score computed by `DeterministicATSAnalyzer` — contact,
structure, keywords, achievements, action verbs, formatting, content depth,
ATS compatibility, and job-description match — lies in [0,100] for every
input, even where the raw additive tally before capping could exceed 100. -/
theorem sub_scores_in_range (f : Features) (jd : Option JDFeatures) (fk : List String) :
    (0 ≤ analyze_contact_info f ∧ analyze_contact_info f ≤ 100) ∧
    (0 ≤ analyze_structure f ∧ analyze_structure f ≤ 100) ∧
    (0 ≤ (analyze_keywords f jd).keyword_score ∧
      (analyze_keywords f jd).keyword_score ≤ 100) ∧
    (0 ≤ analyze_achievements f ∧ analyze_achievements f ≤ 100) ∧
    (0 ≤ analyze_action_verbs f ∧ analyze_action_verbs f ≤ 100) ∧
    (0 ≤ analyze_formatting f ∧ analyze_formatting f ≤ 100) ∧
    (0 ≤ analyze_content_depth f fk ∧ analyze_content_depth f fk ≤ 100) ∧
    (0 ≤ check_ats_compatibility f ∧ check_ats_compatibility f ≤ 100) ∧
    (0 ≤ analyze_jd_match f jd ∧ analyze_jd_match f jd ≤ 100) :=
  ⟨analyze_contact_info_range f, analyze_structure_range f,
   analyze_keywords_score_range f jd, analyze_achievements_range f,
   analyze_action_verbs_range f, analyze_formatting_range f,
   analyze_content_depth_range f fk, check_ats_compatibility_range f,
   analyze_jd_match_range f jd⟩

theorem strengthsPadPass_nil : strengthsPadPass [] = default_strengths := by decide

theorem strengthsPadPass_defaults :
    strengthsPadPass default_strengths = default_strengths := by decide

/-- Iterating the padding pass from the empty strength list only ever
produces the three-element default list. -/
theorem padPass_iterate_nil (n : Nat) :
    strengthsPadPass^[n] ([] : List String) = [] ∨
      strengthsPadPass^[n] ([] : List String) = default_strengths := by
  induction n with
  | zero => left; rfl
  | succ k ih =>
    rw [Function.iterate_succ_apply']
    rcases ih with h | h <;> rw [h]
    · right; exact strengthsPadPass_nil
    · right; exact strengthsPadPass_defaults

/-- C3 (refuting the totality claim): on any input whose metrics satisfy none
of the strength conditions, `_generate_strengths` collects no dynamic
strengths, and the `while len(strengths) < 4` padding loop never terminates:
`default_strengths` has only three entries, so every iterate of the loop body
leaves the list below length 4 and the loop guard never becomes false.
`generate_strengths` returning `none` records that divergence, so
`DeterministicATSAnalyzer.analyze` never returns. -/
theorem generate_strengths_diverges (m : Metrics)
    (h1 : m.quantified_achievements < 2) (h2 : m.high_impact_verbs.length < 3)
    (h3 : m.keyword_count < 10) (h4 : m.formatting_score < 80)
    (h5 : m.has_linkedin = false) (h6 : m.found_sections.length < 4)
    (h7 : m.career_progression < 2)
    (h8 : ¬ (400 ≤ m.word_count ∧ m.word_count ≤ 700)) :
    dynamicStrengths m = [] ∧ generate_strengths m = none ∧
    ∀ n, (strengthsPadPass^[n] (dynamicStrengths m)).length < 4 := by
  have hwc : (decide (400 ≤ m.word_count) && decide (m.word_count ≤ 700)) = false := by
    rcases Nat.lt_or_ge m.word_count 400 with h | h
    · simp [Nat.not_le.mpr h]
    · have hh : ¬ (m.word_count ≤ 700) := fun hle => h8 ⟨h, hle⟩
      simp [hh]
  have hdyn : dynamicStrengths m = [] := by
    simp [dynamicStrengths, strengthSlots, hwc, h5,
      show ¬ (m.quantified_achievements ≥ 5) by omega,
      show ¬ (m.quantified_achievements ≥ 2) by omega,
      show ¬ (m.high_impact_verbs.length ≥ 3) by omega,
      show ¬ (m.keyword_count ≥ 15) by omega,
      show ¬ (m.keyword_count ≥ 10) by omega,
      show ¬ (m.formatting_score ≥ 80) by omega,
      show ¬ (m.found_sections.length ≥ 5) by omega,
      show ¬ (m.found_sections.length ≥ 4) by omega,
      show ¬ (m.career_progression ≥ 2) by omega]
  refine ⟨hdyn, ?_, ?_⟩
  · unfold generate_strengths
    rw [hdyn]
    decide
  · intro n
    rw [hdyn]
    rcases padPass_iterate_nil n with h | h <;> rw [h] <;> decide

/-- Witness for `generate_strengths_diverges` at the concrete degenerate
metrics. -/
theorem generate_strengths_diverges_witness :
    dynamicStrengths degenerateMetrics = [] ∧
    generate_strengths degenerateMetrics = none ∧
    ∀ n, (strengthsPadPass^[n] (dynamicStrengths degenerateMetrics)).length < 4 :=
  generate_strengths_diverges degenerateMetrics (by decide) (by decide) (by decide)
    (by decide) (by decide) (by decide) (by decide) (by decide)

theorem tagOf_append (a b : String) (h : 14 ≤ a.data.length) :
    tagOf (a ++ b) = tagOf a := by
  unfold tagOf
  rw [String.data_append, List.take_append_of_le_length h]

theorem tagOf_append_left (a b c : String) (h : 14 ≤ a.data.length) :
    tagOf ((a ++ b) ++ c) = tagOf (a ++ b) := by
  refine tagOf_append _ _ ?_
  rw [String.data_append, List.length_append]
  omega

theorem tag_strength_quantified (n : Nat) :
    tagOf (strength_quantified n) =
      tagOf "Strong use of quantified achievements (" := by
  unfold strength_quantified
  rw [tagOf_append_left _ _ _ (by decide), tagOf_append _ _ (by decide)]

theorem tag_strength_rich_keywords (kc : Nat) :
    tagOf (strength_rich_keywords kc) = tagOf "Rich keyword content with " := by
  unfold strength_rich_keywords
  rw [tagOf_append_left _ _ _ (by decide), tagOf_append _ _ (by decide)]

theorem tag_imp_missing_sections (ms : List String) :
    tagOf (imp_missing_sections ms) =
      tagOf "Consider adding missing sections: " := by
  unfold imp_missing_sections
  rw [tagOf_append _ _ (by decide)]

theorem tag_rec_quantify_impact (n : Nat) :
    tagOf (rec_quantify_impact n) =
      tagOf "Quantify your impact: Transform statements like " := by
  unfold rec_quantify_impact
  rw [tagOf_append_left _ _ _ (by decide), tagOf_append _ _ (by decide)]
  decide

theorem tag_rec_keyword_density (kc : Nat) :
    tagOf (rec_keyword_density kc) =
      tagOf "Increase keyword density: Add " := by
  unfold rec_keyword_density
  rw [tagOf_append_left _ _ _ (by decide), tagOf_append _ _ (by decide)]

/-- The elements a slot list may emit have tags drawn from per-slot candidate
sets; the emitted tag list is then a sublist of the concatenated candidates. -/
theorem sublist_tags_of_slots {slots : List (Option String)}
    {cands : List (List (List Char))}
    (h : List.Forall₂ (fun o c => ∀ s, o = some s → tagOf s ∈ c) slots cands) :
    List.Sublist ((slots.filterMap id).map tagOf) cands.flatten := by
  induction h with
  | nil => simp
  | @cons o c slots' cands' h₁ _ ih =>
    cases o with
    | none =>
      simp only [List.filterMap_cons_none, List.flatten_cons]
      exact ih.trans (List.sublist_append_right c cands'.flatten)
    | some s =>
      simp only [List.filterMap_cons_some, List.map_cons, List.flatten_cons]
      have hs : tagOf s ∈ c := h₁ s rfl
      exact List.Sublist.append (List.singleton_sublist.mpr hs) ih

theorem dynamicStrengths_tags_sublist (m : Metrics) :
    List.Sublist ((dynamicStrengths m).map tagOf) strengthMasterTags.flatten := by
  apply sublist_tags_of_slots
  unfold strengthSlots strengthMasterTags
  refine .cons ?_ (.cons ?_ (.cons ?_ (.cons ?_ (.cons ?_ (.cons ?_ (.cons ?_
    (.cons ?_ .nil))))))) <;>
    intro s hs <;>
    split_ifs at hs <;>
    first
      | exact Option.noConfusion hs
      | (injection hs with h; subst h;
         first
           | decide
           | (rw [tag_strength_quantified]; decide)
           | (rw [tag_strength_rich_keywords]; decide))

theorem dynamicStrengths_nodup (m : Metrics) : (dynamicStrengths m).Nodup := by
  have hmaster : (strengthMasterTags.flatten).Nodup := by decide
  exact (hmaster.sublist (dynamicStrengths_tags_sublist m)).of_map _

theorem improvements_tags_sublist (m : Metrics) :
    List.Sublist (((improvementSlots m).filterMap id).map tagOf)
      impMasterTags.flatten := by
  apply sublist_tags_of_slots
  unfold improvementSlots impMasterTags
  refine .cons ?_ (.cons ?_ (.cons ?_ (.cons ?_ (.cons ?_ (.cons ?_ (.cons ?_
    (.cons ?_ .nil))))))) <;>
    intro s hs <;>
    (try dsimp only at hs) <;>
    split_ifs at hs <;>
    first
      | exact Option.noConfusion hs
      | (injection hs with h; subst h;
         first
           | decide
           | (rw [tag_imp_missing_sections]; decide))

theorem generate_improvements_len_nodup (m : Metrics) :
    (generate_improvements m).length ≤ 6 ∧ (generate_improvements m).Nodup := by
  have hmaster : (impMasterTags.flatten).Nodup := by decide
  have hnd : ((improvementSlots m).filterMap id).Nodup :=
    (hmaster.sublist (improvements_tags_sublist m)).of_map _
  constructor
  · exact (List.length_take_le _ _)
  · exact hnd.sublist (List.take_sublist _ _)

theorem foldl_pad_nodup (ds : List String) (acc : List String) (h : acc.Nodup) :
    (ds.foldl (fun acc s => if s ∉ acc ∧ acc.length < 4 then acc ++ [s] else acc)
      acc).Nodup := by
  induction ds generalizing acc with
  | nil => exact h
  | cons d ds ih =>
    simp only [List.foldl_cons]
    apply ih
    split_ifs with hd
    · simp [List.nodup_append, h, hd.1]
    · exact h

theorem strengthsPadPass_nodup (s : List String) (h : s.Nodup) :
    (strengthsPadPass s).Nodup := by
  unfold strengthsPadPass
  exact foldl_pad_nodup _ _ h

theorem generate_strengths_spec (m : Metrics) :
    ∀ l, generate_strengths m = some l →
      4 ≤ l.length ∧ l.length ≤ 6 ∧ l.Nodup := by
  intro l hl
  unfold generate_strengths at hl
  dsimp only at hl
  split_ifs at hl <;>
    first
      | exact Option.noConfusion hl
      | (injection hl with hl'; subst hl';
         refine ⟨?_, ?_, List.Nodup.sublist (List.take_sublist _ _)
           (strengthsPadPass_nodup _ (dynamicStrengths_nodup m))⟩ <;>
           rw [List.length_take] <;> omega)
      | (injection hl with hl'; subst hl';
         refine ⟨?_, ?_, List.Nodup.sublist (List.take_sublist _ _)
           (dynamicStrengths_nodup m)⟩ <;>
           rw [List.length_take] <;> omega)

theorem generate_recommendations_spec (m : Metrics) :
    5 ≤ (generate_recommendations m).length ∧
      (generate_recommendations m).length ≤ 7 ∧
      (generate_recommendations m).Nodup := by
  unfold generate_recommendations
  dsimp only
  split_ifs <;>
    refine ⟨?_, ?_, List.Nodup.sublist (List.take_sublist _ _)
      (List.Nodup.of_map tagOf ?_)⟩ <;>
    simp only [insertAt1, List.map_cons, List.map_nil, List.cons_append,
      List.nil_append, List.map_append, tag_rec_quantify_impact,
      tag_rec_keyword_density, List.length_take, List.length_cons,
      List.length_append, List.length_nil] <;>
    first
      | omega
      | decide

/-- Destructuring of a successful `analyze` run: the output is the record
built from the sub-analyses, with the strengths produced by a terminating
padding loop. -/
theorem analyze_eq_some {f : Features} {jd : Option JDFeatures}
    {out : AnalysisOutput} (h : analyze f jd = some out) :
    ∃ strengths,
      generate_strengths (metricsOf f jd (analyze_keywords f jd)
        (analyze_formatting f) (analyze_achievements f)) = some strengths ∧
      out =
        { ats_score :=
            calculate_final_score
              [(analyze_contact_info f, 8), (analyze_structure f, 12),
               ((analyze_keywords f jd).keyword_score, 20),
               (analyze_achievements f, 18), (analyze_action_verbs f, 8),
               (analyze_formatting f, 12),
               (analyze_content_depth f ((analyze_keywords f jd).found_keywords.take 20), 12),
               (check_ats_compatibility f, 5), (analyze_jd_match f jd, 5)]
              f.hasEmailRegex f.quantifiedCount (found_sections f).length
          keyword_analysis :=
            { keyword_score := (analyze_keywords f jd).keyword_score
              present_keywords := (analyze_keywords f jd).found_keywords.take 15
              missing_keywords := (analyze_keywords f jd).missing_keywords.take 8 }
          formatting_score := analyze_formatting f
          content_quality_score :=
            analyze_content_depth f ((analyze_keywords f jd).found_keywords.take 20)
          impact_score := analyze_achievements f
          strengths := strengths
          areas_for_improvement :=
            generate_improvements (metricsOf f jd (analyze_keywords f jd)
              (analyze_formatting f) (analyze_achievements f))
          recommendations :=
            generate_recommendations (metricsOf f jd (analyze_keywords f jd)
              (analyze_formatting f) (analyze_achievements f)) } := by
  unfold analyze at h
  dsimp only at h
  rw [Option.map_eq_some'] at h
  obtain ⟨st, hst, hout⟩ := h
  exact ⟨st, hst, hout.symm⟩

/-- The final score of every returned deterministic analysis is in [0,100]. -/
theorem analyze_score_range {f : Features} {jd : Option JDFeatures}
    {out : AnalysisOutput} (h : analyze f jd = some out) :
    0 ≤ out.ats_score ∧ out.ats_score ≤ 100 := by
  obtain ⟨st, _, hout⟩ := analyze_eq_some h
  subst hout
  exact calculate_final_score_range _ _ _ _

/-- C4 (amended): in every analysis the deterministic scorer returns, the
recommendations list has 5 to 7 entries, the strengths list has 4 to 6
entries, and the improvements list has at most 6 entries (it can be empty);
none of the three lists repeats a canned string. -/
theorem narrative_list_bounds (f : Features) (jd : Option JDFeatures)
    (out : AnalysisOutput) (h : analyze f jd = some out) :
    (5 ≤ out.recommendations.length ∧ out.recommendations.length ≤ 7 ∧
      out.recommendations.Nodup) ∧
    (4 ≤ out.strengths.length ∧ out.strengths.length ≤ 6 ∧ out.strengths.Nodup) ∧
    (out.areas_for_improvement.length ≤ 6 ∧ out.areas_for_improvement.Nodup) := by
  obtain ⟨st, hst, hout⟩ := analyze_eq_some h
  subst hout
  exact ⟨generate_recommendations_spec _, generate_strengths_spec _ st hst,
    generate_improvements_len_nodup _⟩

/-- Witness for `narrative_list_bounds` at a concrete input. -/
theorem narrative_list_bounds_witness :
    (5 ≤ linkedinOnlyOutput.recommendations.length ∧
      linkedinOnlyOutput.recommendations.length ≤ 7 ∧
      linkedinOnlyOutput.recommendations.Nodup) ∧
    (4 ≤ linkedinOnlyOutput.strengths.length ∧
      linkedinOnlyOutput.strengths.length ≤ 6 ∧ linkedinOnlyOutput.strengths.Nodup) ∧
    (linkedinOnlyOutput.areas_for_improvement.length ≤ 6 ∧
      linkedinOnlyOutput.areas_for_improvement.Nodup) :=
  narrative_list_bounds linkedinOnlyFeatures none linkedinOnlyOutput rfl

/-- C4 (counterexample to the claim as stated): the scorer returns an
analysis for the strong resume whose improvements list is empty — not
between 4 and 7 entries. -/
theorem improvements_empty_counterexample :
    (analyze strongResumeFeatures none).map
      (fun o => o.areas_for_improvement) = some [] := by
  rfl

/-- C8: the deterministic scorer is a pure function of the extracted text
observations, the job-description observations and the fixed tables: equal
inputs give equal results — in particular the identical final score and the
identical present- and missing-keyword lists. -/
theorem analyze_deterministic_pure (f₁ f₂ : Features)
    (jd₁ jd₂ : Option JDFeatures) (hf : f₁ = f₂) (hjd : jd₁ = jd₂) :
    analyze f₁ jd₁ = analyze f₂ jd₂ ∧
    (analyze f₁ jd₁).map (fun o => o.ats_score) =
      (analyze f₂ jd₂).map (fun o => o.ats_score) ∧
    (analyze f₁ jd₁).map (fun o => o.keyword_analysis.present_keywords) =
      (analyze f₂ jd₂).map (fun o => o.keyword_analysis.present_keywords) ∧
    (analyze f₁ jd₁).map (fun o => o.keyword_analysis.missing_keywords) =
      (analyze f₂ jd₂).map (fun o => o.keyword_analysis.missing_keywords) := by
  subst hf
  subst hjd
  exact ⟨rfl, rfl, rfl, rfl⟩

/-- Witness for `analyze_deterministic_pure` at a concrete input. -/
theorem analyze_deterministic_pure_witness :
    analyze strongResumeFeatures none = analyze strongResumeFeatures none ∧
    (analyze strongResumeFeatures none).map (fun o => o.ats_score) =
      (analyze strongResumeFeatures none).map (fun o => o.ats_score) ∧
    (analyze strongResumeFeatures none).map
        (fun o => o.keyword_analysis.present_keywords) =
      (analyze strongResumeFeatures none).map
        (fun o => o.keyword_analysis.present_keywords) ∧
    (analyze strongResumeFeatures none).map
        (fun o => o.keyword_analysis.missing_keywords) =
      (analyze strongResumeFeatures none).map
        (fun o => o.keyword_analysis.missing_keywords) :=
  analyze_deterministic_pure strongResumeFeatures strongResumeFeatures none none
    rfl rfl

end DeterministicATSAnalyzer

/-! ## Endpoint-level theorems -/

/-- C1 (amended): every analysis app.py's remote path returns carries a score
clamped to [0,100] (including the not-JSON fallback); every analysis the
deterministic scorer returns has its score in [0,100]; and the hybrid merge
of main.py keeps the score in [0,100] with or without AI insights (the ±10
adjustment is re-clamped).  index.py is the exception, shown by its
counterexample. -/
theorem returned_score_clamped_app_main :
    (∀ (resp : App.RemoteResponse) (a : App.AnalysisResult),
        App.call_groq_ai resp = .ok a → 0 ≤ a.ats_score ∧ a.ats_score ≤ 100) ∧
    (∀ (f : DeterministicATSAnalyzer.Features)
        (jd : Option DeterministicATSAnalyzer.JDFeatures)
        (out : DeterministicATSAnalyzer.AnalysisOutput),
        DeterministicATSAnalyzer.analyze f jd = some out →
          0 ≤ out.ats_score ∧ out.ats_score ≤ 100) ∧
    (∀ (f : DeterministicATSAnalyzer.Features)
        (jd : Option DeterministicATSAnalyzer.JDFeatures)
        (out : DeterministicATSAnalyzer.AnalysisOutput) (ai : Option AIInsights),
        DeterministicATSAnalyzer.analyze f jd = some out →
          0 ≤ (merge_analysis_results out ai).ats_score ∧
            (merge_analysis_results out ai).ats_score ≤ 100) := by
  refine ⟨?_, ?_, ?_⟩
  · intro resp a h
    cases resp with
    | ok reply =>
      cases reply with
      | some r =>
        unfold App.call_groq_ai at h
        injection h with h'
        subst h'
        dsimp only
        omega
      | none =>
        unfold App.call_groq_ai at h
        injection h with h'
        subst h'
        decide
    | httpFail code => exact Except.noConfusion h
    | netError => exact Except.noConfusion h
  · intro f jd out h
    exact DeterministicATSAnalyzer.analyze_score_range h
  · intro f jd out ai h
    cases ai with
    | some a =>
      unfold merge_analysis_results
      dsimp only
      omega
    | none =>
      unfold merge_analysis_results
      dsimp only
      exact DeterministicATSAnalyzer.analyze_score_range h

/-- Witness for `returned_score_clamped_app_main` at concrete inputs. -/
theorem returned_score_clamped_app_main_witness :
    (0 ≤ App.fallbackAnalysis.ats_score ∧ App.fallbackAnalysis.ats_score ≤ 100) ∧
    (0 ≤ DeterministicATSAnalyzer.linkedinOnlyOutput.ats_score ∧
      DeterministicATSAnalyzer.linkedinOnlyOutput.ats_score ≤ 100) ∧
    (0 ≤ (merge_analysis_results DeterministicATSAnalyzer.linkedinOnlyOutput
        none).ats_score ∧
      (merge_analysis_results DeterministicATSAnalyzer.linkedinOnlyOutput
        none).ats_score ≤ 100) :=
  ⟨returned_score_clamped_app_main.1 (.ok none) App.fallbackAnalysis rfl,
   returned_score_clamped_app_main.2.1 DeterministicATSAnalyzer.linkedinOnlyFeatures
     none DeterministicATSAnalyzer.linkedinOnlyOutput rfl,
   returned_score_clamped_app_main.2.2 DeterministicATSAnalyzer.linkedinOnlyFeatures
     none DeterministicATSAnalyzer.linkedinOnlyOutput none rfl⟩

/-- C1 (counterexample to the claim as stated): index.py returns the remote
score without clamping — a parsed reply carrying score 150 is passed through
to the caller as 150, outside [0,100]. -/
theorem index_score_unclamped_counterexample :
    (Index.analyze_resume_with_ai (some oversizedIndexReply) "").score = 150 ∧
    ¬ ((Index.analyze_resume_with_ai (some oversizedIndexReply) "").score ≤ 100) := by
  constructor
  · rfl
  · decide

/-- C5 (amended): only app.py's `/analyze` enforces the 50-character minimum
before scoring — whenever it reaches the AI call, the stripped extracted text
has at least 50 characters — while main.py's `/analyze` hands any
successfully decoded txt text that does not begin with `Error`/`Unsupported`
straight to the scorer, with no length gate. -/
theorem fifty_char_gate_only_in_app :
    (∀ pdfE docxE (fn : Option String) (size : Option Nat) bytes jd t j,
        App.analyze_resume pdfE docxE fn size bytes jd = .callsAI t j →
          50 ≤ (pyStrip t).length) ∧
    (∀ pdfE docxE (fn : String) bytes (jd : Option String) t,
        fn ≠ "" →
        strEndsWith (pyLower fn) ".pdf" = false →
        strEndsWith (pyLower fn) ".docx" = false →
        strEndsWith (pyLower fn) ".txt" = true →
        utf8Decode bytes = some t →
        beginsWithL (strCodes "Error") t = false →
        beginsWithL (strCodes "Unsupported") t = false →
        Main.analyze_resume pdfE docxE (some fn) bytes jd =
          .analyzed t (jd.getD "")) := by
  constructor
  · intro pdfE docxE fn size bytes jd t j h
    unfold App.analyze_resume at h
    dsimp only at h
    split_ifs at h
    all_goals (try split at h)
    all_goals (try split_ifs at h)
    all_goals
      first
        | exact App.AnalyzeOutcome.noConfusion h
        | (injection h with h₁ h₂
           subst h₁
           rename_i hguard
           rw [not_or] at hguard
           omega)
  · intro pdfE docxE fn bytes jd t hfn hpdf hdocx htxt hdec hE hU
    unfold Main.analyze_resume Main.extract_text_from_file
    simp [hfn, hpdf, hdocx, htxt, hdec, hE, hU]

/-- Witness for `fifty_char_gate_only_in_app` at concrete inputs. -/
theorem fifty_char_gate_only_in_app_witness :
    50 ≤ (pyStrip longTextCodes).length ∧
    Main.analyze_resume id id (some "resume.txt") shortTextCodes none =
      .analyzed shortTextCodes "" :=
  ⟨fifty_char_gate_only_in_app.1 (fun b => .ok b) (fun b => .ok b)
      (some "resume.txt") (some 100) longTextCodes "" longTextCodes "" rfl,
   fifty_char_gate_only_in_app.2 id id "resume.txt" shortTextCodes none
      shortTextCodes (by decide) (by decide) (by decide) (by decide) rfl
      (by decide) (by decide)⟩

/-- C5 (counterexample to the claim as stated): main.py's `/analyze` scores a
9-character txt upload instead of rejecting it. -/
theorem short_text_scored_counterexample :
    Main.analyze_resume id id (some "resume.txt") shortTextCodes none =
      .analyzed shortTextCodes "" := by
  rfl

/-- C6 (amended): with the credential variable absent, main.py's hybrid path
silently returns the deterministic analysis (merged with no AI insights)
whenever the scorer terminates; index.py instead rejects every request with
HTTP 500 before even reading the file. -/
theorem missing_key_main_fallback_index_500 :
    (∀ f jd aiReply,
        analyze_resume_with_hybrid_approach f jd none aiReply =
          (DeterministicATSAnalyzer.analyze f jd).map
            (fun det => merge_analysis_results det none)) ∧
    (∀ pdfE docxE (fn : String) (size : Nat) bytes (jd : Option String),
        Index.analyze_resume none pdfE docxE fn size bytes jd =
          .httpError 500 "AI service configuration error") := by
  constructor
  · intro f jd aiReply
    unfold analyze_resume_with_hybrid_approach
    simp
  · intro pdfE docxE fn size bytes jd
    unfold Index.analyze_resume
    simp

/-- C6 (counterexample to the claim as stated): with no credential, index.py
fails the request with HTTP 500 instead of falling back. -/
theorem index_missing_key_500_counterexample :
    Index.analyze_resume none (fun b => .ok b) (fun b => .ok b) "resume.txt" 100
      longTextCodes none = .httpError 500 "AI service configuration error" := by
  rfl

/-- C7 (amended): a txt upload whose bytes are not valid UTF-8 is rejected by
app.py with a handled HTTP 400 (`Error reading TXT: ...`), but in main.py the
`UnicodeDecodeError` from the bare `file_content.decode("utf-8")` escapes the
handler as an unhandled exception. -/
theorem txt_decode_error_handling :
    (∀ pdfE docxE (fn : String) (size : Option Nat) bytes jd,
        fn ≠ "" →
        App.fileExtOf fn = "txt" →
        (match size with
          | some s => decide (s > 10 * 1024 * 1024)
          | none => false) = false →
        bytes ≠ [] →
        utf8Decode bytes = none →
        App.analyze_resume pdfE docxE (some fn) size bytes jd =
          .httpError 400 (strCodes "Error reading TXT")) ∧
    (∀ pdfE docxE (fn : String) bytes (jd : Option String),
        fn ≠ "" →
        strEndsWith (pyLower fn) ".pdf" = false →
        strEndsWith (pyLower fn) ".docx" = false →
        strEndsWith (pyLower fn) ".txt" = true →
        utf8Decode bytes = none →
        Main.analyze_resume pdfE docxE (some fn) bytes jd =
          .unhandledException) := by
  constructor
  · intro pdfE docxE fn size bytes jd hfn hext hsize hbytes hdec
    unfold App.analyze_resume
    simp [hfn, hext, hsize, hdec, List.length_eq_zero, hbytes]
  · intro pdfE docxE fn bytes jd hfn hpdf hdocx htxt hdec
    unfold Main.analyze_resume Main.extract_text_from_file
    simp [hfn, hpdf, hdocx, htxt, hdec]

/-- Witness for `txt_decode_error_handling` at the concrete bytes `[0xFF]`. -/
theorem txt_decode_error_handling_witness :
    App.analyze_resume (fun b => .ok b) (fun b => .ok b) (some "resume.txt")
      none [255] "" = .httpError 400 (strCodes "Error reading TXT") ∧
    Main.analyze_resume id id (some "r.txt") [255] none = .unhandledException :=
  ⟨txt_decode_error_handling.1 (fun b => .ok b) (fun b => .ok b) "resume.txt"
      none [255] "" (by decide) (by decide) rfl (by decide) rfl,
   txt_decode_error_handling.2 id id "r.txt" [255] none (by decide) (by decide)
      (by decide) (by decide) rfl⟩

/-- C7 (counterexample to the claim as stated): in main.py a txt upload of
the single byte 0xFF makes the handler die with an unhandled exception
rather than a handled client error. -/
theorem invalid_utf8_unhandled_counterexample :
    Main.analyze_resume id id (some "resume.txt") [255] none =
      .unhandledException := by
  rfl

/-- C10: in main.py's `/analyze`, any txt upload whose successfully decoded
text begins with `Error` or `Unsupported` is rejected with the HTTP 400
extraction-error response (and never reaches the scorer), because extraction
failures are signalled in-band as text with those prefixes. -/
theorem error_prefixed_text_rejected (pdfE docxE : List Nat → List Nat)
    (fn : String) (bytes : List Nat) (jd : Option String) (t : List Nat)
    (hfn : fn ≠ "")
    (hpdf : strEndsWith (pyLower fn) ".pdf" = false)
    (hdocx : strEndsWith (pyLower fn) ".docx" = false)
    (htxt : strEndsWith (pyLower fn) ".txt" = true)
    (hdec : utf8Decode bytes = some t)
    (hpre : beginsWithL (strCodes "Error") t = true ∨
      beginsWithL (strCodes "Unsupported") t = true) :
    Main.analyze_resume pdfE docxE (some fn) bytes jd = .extractionError t := by
  unfold Main.analyze_resume Main.extract_text_from_file
  rcases hpre with h | h <;> simp [hfn, hpdf, hdocx, htxt, hdec, h]

/-- Witness for `error_prefixed_text_rejected`: a valid UTF-8 resume whose
first word is `Error` is rejected. -/
theorem error_prefixed_text_rejected_witness :
    Main.analyze_resume id id (some "resume.txt") errorTextCodes none =
      .extractionError errorTextCodes :=
  error_prefixed_text_rejected id id "resume.txt" errorTextCodes none
    errorTextCodes (by decide) (by decide) (by decide) (by decide) rfl
    (Or.inl (by decide))

end ATS
